import Mathlib

/-!
Shallow embedding of the report-orchestration layer of the QuantInvestStrats
repository: `qis/portfolio/reports/strategy_benchmark_factsheet.py` and
`qis/portfolio/reports/multi_strategy_factsheet.py`.

The report functions are declarative orchestration: they allocate matplotlib
figures with grid specs, wire collaborator plotting calls onto grid cells, and
merge keyword-style configuration dictionaries.  The embedding keeps exactly
that structure: a `Figure` records the grid geometry and the ordered list of
collaborator calls, each `Call` records the collaborator method name, the axes
(grid cells) it is wired to, and the keyword dictionary it receives.  Python
exceptions raised by this layer (the explicit `ValueError` guard and the
`IndexError` raised by `xs[i]` on a too-short sequence or empty column index)
are modelled with an `Except` monad.  Data produced by external collaborator
computations (inferred benchmark frequency, aligned weight columns, group
keys) enters the model as fields of the input data structures.
-/

namespace QIS

/-- Reporting time-window token (`qis.TimePeriod`).  `noneTP` stands for the
Python value `None`; `fromNav` is the window derived by `qis.get_time_period`
from the first portfolio NAV (strategy_benchmark_factsheet.py line 58);
`shiftYears t n` models `qis.get_time_period_shifted_by_years`.  The latter two
helpers are not under src/ and are modelled from the spec: the window, "when
absent, is derived from the full extent of the primary portfolio's NAV series,
or shifted by a fixed number of years for a trailing window variant". -/
inductive TP where
  | noneTP
  | fromNav
  | user (n : Nat)
  | shiftYears (t : TP) (n : Nat)
deriving DecidableEq, Repr

/-- Value of a Python keyword argument as it appears in this layer.  Numeric
literals of the source (including its float literals, which are all exact
decimals) are carried as rationals; `obj name` stands for an opaque reference
to an externally supplied object (a collaborator, a pandas object, a title
string built by interpolation). -/
inductive PVal where
  | num (q : ℚ)
  | str (s : String)
  | bool (b : Bool)
  | pyNone
  | tp (t : TP)
  | natList (ns : List Nat)
  | obj (name : String)
deriving DecidableEq, Repr

/-- Keyword dictionary (Python `**kwargs`), as an association list. -/
abbrev Kwargs := List (String × PVal)

/-- Dictionary lookup, first binding wins. -/
def lookupKw : Kwargs → String → Option PVal
  | [], _ => none
  | p :: t, k => if k = p.1 then some p.2 else lookupKw t k

/-- Modelled from the spec: `qis.update_kwargs` (defined in the qis utility
modules of this repository, which are not under src/) merges a keyword
dictionary with a dictionary of new entries; per the spec, "later merges
override earlier ones for colliding keys", i.e. it behaves as Python
`dict.update`: every key of `new_kwargs` takes its `new_kwargs` value, every
other key keeps its `kwargs` value. -/
def update_kwargs (kwargs new_kwargs : Kwargs) : Kwargs :=
  kwargs.filter (fun p => (lookupKw new_kwargs p.1).isNone) ++ new_kwargs

theorem lookupKw_append (l₁ l₂ : Kwargs) (k : String) :
    lookupKw (l₁ ++ l₂) k =
      match lookupKw l₁ k with
      | some v => some v
      | none => lookupKw l₂ k := by
  induction l₁ with
  | nil => simp [lookupKw]
  | cons p t ih =>
      by_cases h : k = p.1
      · simp [lookupKw, h]
      · simp [lookupKw, h, ih]

theorem lookupKw_filter_of_some (ks new : Kwargs) (k : String) (v : PVal)
    (h : lookupKw new k = some v) :
    lookupKw (ks.filter (fun p => (lookupKw new p.1).isNone)) k = none := by
  induction ks with
  | nil => simp [lookupKw]
  | cons p t ih =>
      by_cases hk : k = p.1
      · subst hk
        simp [List.filter_cons, h, ih]
      · cases hp : (lookupKw new p.1).isNone <;>
          simp [List.filter_cons, hp, lookupKw, hk, ih]

theorem lookupKw_filter_of_none (ks new : Kwargs) (k : String)
    (h : lookupKw new k = none) :
    lookupKw (ks.filter (fun p => (lookupKw new p.1).isNone)) k = lookupKw ks k := by
  induction ks with
  | nil => simp
  | cons p t ih =>
      by_cases hk : k = p.1
      · subst hk
        simp [List.filter_cons, h, lookupKw, ih]
      · cases hp : (lookupKw new p.1).isNone <;>
          simp [List.filter_cons, hp, lookupKw, hk, ih]

/-- Characterisation of the dictionary merge: a colliding key takes the value
from the later (`new`) dictionary, any other key passes through unchanged. -/
theorem lookupKw_update_kwargs (ks new : Kwargs) (k : String) :
    lookupKw (update_kwargs ks new) k =
      match lookupKw new k with
      | some v => some v
      | none => lookupKw ks k := by
  unfold update_kwargs
  rw [lookupKw_append]
  cases h : lookupKw new k with
  | some v => simp [lookupKw_filter_of_some ks new k v h]
  | none =>
      rw [lookupKw_filter_of_none ks new k h]
      cases lookupKw ks k <;> simp [h]

theorem lookupKw_eq_none_of_not_mem (ks : Kwargs) (k : String)
    (h : k ∉ ks.map Prod.fst) : lookupKw ks k = none := by
  induction ks with
  | nil => rfl
  | cons p t ih =>
      simp only [List.map_cons, List.mem_cons] at h
      push_neg at h
      simp [lookupKw, h.1, ih h.2]

/-- Exceptions raised by this layer itself: the explicit portfolio-count guard
(`raise ValueError(...)`) and the `IndexError` produced by Python sequence or
column indexing (`xs[i]`, `columns[0]`) on a too-short sequence. -/
inductive PyErr where
  | valueError (msg : String)
  | indexError
deriving DecidableEq, Repr

/-- Python sequence indexing `xs[i]`: raises `IndexError` when out of range. -/
def eIndex {α : Type} (xs : List α) (i : Nat) : Except PyErr α :=
  match xs.get? i with
  | some x => .ok x
  | none => .error .indexError

/-- Decides whether a computation of this layer ended in the explicit
`ValueError` precondition failure (as opposed to succeeding or raising an
`IndexError` from an indexing expression). -/
def raisesVE {α : Type} : Except PyErr α → Bool
  | .error (.valueError _) => true
  | _ => false

theorem raisesVE_pure {α : Type} (x : α) :
    raisesVE (pure x : Except PyErr α) = false := rfl

theorem raisesVE_eIndex {α : Type} (xs : List α) (i : Nat) :
    raisesVE (eIndex xs i) = false := by
  unfold eIndex
  split <;> rfl

theorem raisesVE_bind {α β : Type} (x : Except PyErr α) (f : α → Except PyErr β)
    (hx : raisesVE x = false) (hf : ∀ a, raisesVE (f a) = false) :
    raisesVE (x >>= f) = false := by
  cases x with
  | ok a => exact hf a
  | error e =>
      cases e with
      | valueError m => simp [raisesVE] at hx
      | indexError => rfl

/-- Grid cell of a matplotlib gridspec: rows `[r₀, r₁)` and columns `[c₀, c₁)`.
`fig.add_subplot(gs[a:b, c:d])` is the cell `⟨a, b, c, d⟩`; a single index `i`
stands for the slice `[i, i+1)`, and a bare `:` for the full extent. -/
structure Cell where
  r₀ : Nat
  r₁ : Nat
  c₀ : Nat
  c₁ : Nat
deriving DecidableEq, Repr

/-- An axis handed to a plotting call: either a grid cell of the current
figure, or Python `None` (the source passes literal `None` placeholders in the
axis list of one Brinson call). -/
abbrev Ax := Option Cell

/-- One collaborator plotting call issued while assembling a figure: the
method name, the axes it draws on, and the keyword dictionary it receives
(the merged style kwargs plus the call's own explicit keyword arguments;
externally supplied objects appear as `PVal.obj`). -/
structure Call where
  method : String
  cells : List Ax
  kwargs : Kwargs
deriving DecidableEq, Repr

/-- An assembled report page: grid geometry plus the ordered plotting calls. -/
structure Figure where
  nrows : Nat
  ncols : Nat
  calls : List Call
deriving DecidableEq, Repr

/-- An underlying numeric table returned for programmatic consumption by
`weights_tracking_error_report`; `source` names the collaborator computation
that produced it. -/
structure Table where
  source : String
deriving DecidableEq, Repr

def mkCall (method : String) (cells : List Ax) (kwargs : Kwargs) : Call :=
  ⟨method, cells, kwargs⟩

/-- Per-portfolio collaborator data (`qis.portfolio.portfolio_data.PortfolioData`)
as consumed by this layer: the identifier, the columns of the default
`get_weights()` table, and the columns of the instrument price table
`.prices`. -/
structure PortfolioData where
  ticker : String
  weightsColumns : List String
  pricesColumns : List String
deriving DecidableEq, Repr

/-- Multi-portfolio collaborator data
(`qis.portfolio.multi_portfolio_data.MultiPortfolioData`) as consumed by this
layer.  Results of external collaborator computations that this layer merely
iterates over enter the model as data: `inferredBenchmarkFreq` is
`pd.infer_freq` of the first benchmark price index, `alignedWeightsColumns`
the columns of `get_aligned_weights`, `groupKeys` the keys of
`get_grouped_long_short_exposures`. -/
structure MultiPortfolioData where
  portfolio_datas : List PortfolioData
  benchmarkPricesColumns : List String
  inferredBenchmarkFreq : Option String
  alignedWeightsColumns : List String
  groupKeys : List String
deriving DecidableEq, Repr

/-- Keyword value of the call's kwargs at position `i` of a figure's call
list, for key `k`. -/
def callKwargsAt (f : Figure) (i : Nat) (k : String) : Option PVal :=
  (f.calls.get? i).bind (fun c => lookupKw c.kwargs k)

/-- Keyword value for key `k` in the first call of the first figure of a
report result. -/
def firstCallKwarg (r : Except PyErr (List Figure)) (k : String) : Option PVal :=
  match r with
  | .ok (f :: _) =>
      match f.calls with
      | c :: _ => lookupKw c.kwargs k
      | [] => none
  | _ => none

/-- Report-specific style defaults of `generate_strategy_benchmark_factsheet_plt`
(strategy_benchmark_factsheet.py lines 61-67): these are merged over the
caller's kwargs by `qis.update_kwargs(kwargs, plot_kwargs)` on line 68. -/
def factsheet_plot_kwargs (fontsize : Nat) (time_period : TP) : Kwargs :=
  [("fontsize", .num fontsize), ("linewidth", .num (1/2)),
   ("digits_to_show", .num 1), ("sharpe_digits", .num 2),
   ("weight", .str "normal"), ("markersize", .num 1),
   ("framealpha", .num (3/4)), ("time_period", .tp time_period)]

/-- Auto-selection of the grouped display mode (lines 50-54): when the caller
leaves `is_grouped` as `None`, grouped mode is chosen iff the first
portfolio's weight table has at least ten columns ("otherwise tables look too
bad"); an explicit `is_grouped` is used unchanged. -/
def resolve_is_grouped (is_grouped : Option Bool) (p0 : PortfolioData) : Bool :=
  match is_grouped with
  | some b => b
  | none => if 10 ≤ p0.weightsColumns.length then true else false

/-- Keyword dictionary handed to the one-year-shifted risk-adjusted
performance table (lines 131-136): when the inferred native frequency of the
benchmark price index is business-daily `B` or daily `D`, the regression
switches to weekly `W-WED` with annualisation factor 52; otherwise only the
shifted window and fontsize are updated. -/
def shifted_ra_table_kwargs (kwargs : Kwargs) (inferred_freq : Option String)
    (fontsize : Nat) (time_period : TP) : Kwargs :=
  if inferred_freq = some "B" ∨ inferred_freq = some "D" then
    update_kwargs kwargs
      [("time_period", .tp (.shiftYears time_period 1)), ("alpha_an_factor", .num 52),
       ("freq_reg", .str "W-WED"), ("fontsize", .num fontsize)]
  else
    update_kwargs kwargs
      [("time_period", .tp (.shiftYears time_period 1)), ("fontsize", .num fontsize)]

/-- Periodic-returns heatmap call of portfolio `who` (lines 146-160). -/
def periodic_returns_call (kwargs : Kwargs) (fontsize : Nat)
    (is_grouped add_benchmarks_to_navs : Bool) (who : String) (cell : Cell) : Call :=
  mkCall who [some cell]
    (update_kwargs (update_kwargs kwargs
        [("fontsize", .num fontsize), ("square", .bool false),
         ("x_rotation", .num 90), ("transpose", .bool false)])
      [("is_grouped", .bool is_grouped),
       ("benchmark_prices",
        if add_benchmarks_to_navs then .obj "benchmark_prices" else .pyNone)])

/-- Primary 14×4 page of `generate_strategy_benchmark_factsheet_plt`
(lines 71-219), one entry per collaborator plotting call, in source order. -/
def factsheet_main_fig (kwargs : Kwargs) (fontsize : Nat) (is_grouped : Bool)
    (add_benchmarks_to_navs : Bool) (regime_benchmark : String)
    (inferred_freq : Option String) (time_period : TP) : Figure :=
  { nrows := 14, ncols := 4, calls :=
    [ mkCall "plot_nav" [some ⟨0, 2, 0, 2⟩]
        (update_kwargs kwargs
          [("add_benchmarks_to_navs", .bool add_benchmarks_to_navs),
           ("regime_benchmark", .str regime_benchmark),
           ("perf_params", .obj "perf_params"),
           ("regime_params", .obj "regime_params"),
           ("title", .obj "cumulative-performance regime title")]),
      mkCall "plot_drawdowns" [some ⟨2, 4, 0, 2⟩]
        (update_kwargs kwargs
          [("add_benchmarks_to_navs", .bool add_benchmarks_to_navs),
           ("regime_benchmark", .str regime_benchmark),
           ("regime_params", .obj "regime_params"),
           ("title", .str "Running Drawdowns")]),
      mkCall "plot_rolling_time_under_water" [some ⟨4, 6, 0, 2⟩]
        (update_kwargs kwargs
          [("add_benchmarks_to_navs", .bool add_benchmarks_to_navs),
           ("regime_benchmark", .str regime_benchmark),
           ("regime_params", .obj "regime_params"),
           ("title", .str "Rolling time under water")]),
      mkCall "plot_rolling_perf" [some ⟨6, 8, 0, 2⟩]
        (update_kwargs kwargs
          [("add_benchmarks_to_navs", .bool add_benchmarks_to_navs),
           ("regime_benchmark", .str regime_benchmark),
           ("regime_params", .obj "regime_params")]),
      mkCall "plot_exposures" [some ⟨8, 10, 0, 2⟩]
        (update_kwargs kwargs
          [("benchmark", .str regime_benchmark),
           ("regime_params", .obj "regime_params")]),
      mkCall "plot_turnover" [some ⟨10, 12, 0, 2⟩]
        (update_kwargs kwargs
          [("benchmark", .str regime_benchmark),
           ("regime_params", .obj "regime_params")]),
      mkCall "plot_costs" [some ⟨12, 14, 0, 2⟩]
        (update_kwargs kwargs
          [("benchmark", .str regime_benchmark),
           ("regime_params", .obj "regime_params")]),
      mkCall "plot_ac_ra_perf_table" [some ⟨0, 2, 2, 4⟩]
        (update_kwargs (update_kwargs kwargs [("fontsize", .num fontsize)])
          [("benchmark_price", .obj "benchmark_price"),
           ("add_benchmarks_to_navs", .bool add_benchmarks_to_navs),
           ("perf_params", .obj "perf_params"),
           ("is_grouped", .bool is_grouped)]),
      mkCall "plot_ac_ra_perf_table" [some ⟨2, 4, 2, 4⟩]
        (update_kwargs (shifted_ra_table_kwargs kwargs inferred_freq fontsize time_period)
          [("benchmark_price", .obj "benchmark_price"),
           ("add_benchmarks_to_navs", .bool add_benchmarks_to_navs),
           ("perf_params", .obj "perf_params"),
           ("is_grouped", .bool is_grouped)]),
      periodic_returns_call kwargs fontsize is_grouped add_benchmarks_to_navs
        "portfolio_datas[0].plot_periodic_returns" ⟨4, 6, 2, 3⟩,
      periodic_returns_call kwargs fontsize is_grouped add_benchmarks_to_navs
        "portfolio_datas[1].plot_periodic_returns" ⟨4, 6, 3, 4⟩,
      mkCall "plot_regime_data" [some ⟨6, 8, 2, 3⟩]
        (update_kwargs (update_kwargs kwargs
            [("fontsize", .num fontsize), ("x_rotation", .num 90)])
          [("benchmark", .str regime_benchmark),
           ("add_benchmarks_to_navs", .bool add_benchmarks_to_navs),
           ("is_grouped", .bool false),
           ("title", .obj "sharpe-regime post title"),
           ("perf_params", .obj "perf_params"),
           ("regime_params", .obj "regime_params")]),
      mkCall "portfolio_datas[0].plot_regime_data" [some ⟨6, 8, 3, 4⟩]
        (update_kwargs (update_kwargs kwargs
            [("fontsize", .num fontsize), ("x_rotation", .num 90)])
          [("benchmark_price", .obj "benchmark_price"),
           ("add_benchmarks_to_navs", .bool add_benchmarks_to_navs),
           ("is_grouped", .bool false),
           ("title", .obj "strategy sharpe-regime post title"),
           ("perf_params", .obj "perf_params"),
           ("regime_params", .obj "regime_params")]),
      mkCall "plot_instrument_pnl_diff" [some ⟨8, 10, 2, 4⟩]
        (update_kwargs kwargs
          [("benchmark", .str regime_benchmark),
           ("regime_params", .obj "regime_params")]),
      mkCall "plot_factor_betas" [some ⟨10, 12, 2, 4⟩]
        (update_kwargs kwargs
          [("benchmark_prices", .obj "benchmark_prices[[regime_benchmark]]"),
           ("regime_benchmark", .str regime_benchmark),
           ("regime_params", .obj "regime_params")]),
      mkCall "plot_returns_scatter" [some ⟨12, 14, 2, 4⟩]
        (update_kwargs (update_kwargs kwargs [("freq", .obj "perf_params.freq_reg")])
          [("benchmark", .str regime_benchmark)]) ] }

/-- Brinson attribution page (lines 221-241): a 3×2 grid; five axes are
created, at cells (0,0), (0,1), (1,0), (1,1) and (2,1), and handed to
`plot_brinson_attribution` with the interaction term excluded
(`is_exclude_interaction_term=True`); `plot_exposures_diff` then fills cell
(2,0). -/
def brinson_fig (kwargs : Kwargs) (strategy_idx benchmark_idx : Nat)
    (regime_benchmark : String) : Figure :=
  { nrows := 3, ncols := 2, calls :=
    [ mkCall "plot_brinson_attribution"
        [some ⟨0, 1, 0, 1⟩, some ⟨0, 1, 1, 2⟩, some ⟨1, 2, 0, 1⟩,
         some ⟨1, 2, 1, 2⟩, some ⟨2, 3, 1, 2⟩]
        (update_kwargs kwargs
          [("strategy_idx", .num strategy_idx),
           ("benchmark_idx", .num benchmark_idx),
           ("freq", .pyNone), ("total_column", .str "Total Sum"),
           ("is_exclude_interaction_term", .bool true)]),
      mkCall "plot_exposures_diff" [some ⟨2, 3, 0, 1⟩]
        (update_kwargs kwargs
          [("benchmark", .str regime_benchmark),
           ("regime_params", .obj "regime_params")]) ] }

/-- Tracking-error table page (lines 243-257): a single-cell figure holding a
`qis.plot_df_table` rendering of `compute_tracking_error_table`. -/
def tracking_error_fig (kwargs : Kwargs) : Figure :=
  { nrows := 1, ncols := 1, calls :=
    [ mkCall "qis.plot_df_table" [some ⟨0, 1, 0, 1⟩]
        (update_kwargs kwargs
          [("df", .obj "tre_table"), ("first_row_height", .num (3/40)),
           ("var_format", .str "\x7b:.2%\x7d"),
           ("rotation_for_columns_headers", .num 90),
           ("heatmap_columns", .obj "heatmap_columns"),
           ("cmap", .str "Blues")]) ] }

/-- Exposures/turnover comparison page for one instrument (lines 271-289):
a 2×1 figure with two `qis.plot_time_series` panels. -/
def exposures_comp_fig (kwargs : Kwargs) (inst : String) : Figure :=
  { nrows := 2, ncols := 1, calls :=
    [ mkCall "qis.plot_time_series" [some ⟨0, 1, 0, 1⟩]
        (update_kwargs kwargs
          [("df", .obj inst), ("title", .str "Exposures"),
           ("legend_stats", .obj "LegendStats.AVG_MIN_MAX_LAST"),
           ("var_format", .str "\x7b:,.2%\x7d")]),
      mkCall "qis.plot_time_series" [some ⟨1, 2, 0, 1⟩]
        (update_kwargs kwargs
          [("df", .obj inst), ("title", .str "Turnover"),
           ("legend_stats", .obj "LegendStats.AVG_MIN_MAX_LAST"),
           ("var_format", .str "\x7b:,.2%\x7d")]) ] }

/-- Calls drawn in one cell of the grouped exposures/P&L attribution page
(lines 323-332): a time-series plot, the regime shadows, the spine styling. -/
def pnl_attribution_cell_calls (kwargs : Kwargs) (regime_benchmark : String)
    (idx j : Nat) (title : String) : List Call :=
  [ mkCall "qis.plot_time_series" [some ⟨idx, idx + 1, j, j + 1⟩]
      (update_kwargs (update_kwargs kwargs [("framealpha", .num (9/10))])
        [("var_format", .str "\x7b:,.0%\x7d"),
         ("legend_stats", .obj "LegendStats.AVG_MIN_MAX_LAST"),
         ("title", .str title)]),
    mkCall "add_regime_shadows" [some ⟨idx, idx + 1, j, j + 1⟩]
      [("regime_benchmark", .str regime_benchmark),
       ("regime_params", .obj "regime_params")],
    mkCall "qis.set_spines" [some ⟨idx, idx + 1, j, j + 1⟩]
      [("bottom_spine", .bool false), ("left_spine", .bool false)] ]

/-- Grouped exposures/P&L attribution page (lines 306-332): one grid row per
distinct group, two columns (aggregated net exposures, cumulative P&L
attribution). -/
def pnl_attribution_fig (kwargs : Kwargs) (regime_benchmark : String)
    (groupKeys : List String) : Figure :=
  { nrows := groupKeys.length, ncols := 2, calls :=
    (groupKeys.enum.map (fun p =>
      pnl_attribution_cell_calls kwargs regime_benchmark p.1 0
          (p.2 ++ " aggregated net exposures") ++
        pnl_attribution_cell_calls kwargs regime_benchmark p.1 1
          (p.2 ++ " cumulative P&L attribution"))).flatten }

/-- Modelled from the spec: `generate_strategy_factsheet`
(qis/portfolio/reports/strategy_factsheet.py, not included under src/)
produces "one sub-factsheet page per underlying portfolio"; it is modelled as
one page carrying the forwarded keyword configuration. -/
def generate_strategy_factsheet (portfolio_data : PortfolioData)
    (kwargs : Kwargs) : Figure :=
  { nrows := 1, ncols := 1, calls :=
    [ mkCall "generate_strategy_factsheet" []
        (update_kwargs kwargs
          [("portfolio_data", .obj portfolio_data.ticker),
           ("benchmark_prices", .obj "benchmark_prices"),
           ("perf_params", .obj "perf_params"),
           ("regime_params", .obj "regime_params")]) ] }

/-- Optional exposures/turnover comparison section (lines 259-289): when
enabled, it reads the strategy and benchmark tickers
(`portfolio_datas[strategy_idx]`, `portfolio_datas[benchmark_idx]`) and
produces one page per aligned weight column. -/
def exposures_comp_section (multi_portfolio_data : MultiPortfolioData)
    (enabled : Bool) (strategy_idx benchmark_idx : Nat) (kwargs : Kwargs) :
    Except PyErr (List Figure) :=
  if enabled then do
    let _sd ← eIndex multi_portfolio_data.portfolio_datas strategy_idx
    let _bd ← eIndex multi_portfolio_data.portfolio_datas benchmark_idx
    pure (multi_portfolio_data.alignedWeightsColumns.map
      (fun inst => exposures_comp_fig kwargs inst))
  else pure []

/-- Optional grouped exposures/P&L attribution section (lines 291-332): when
enabled, it reads the strategy and benchmark portfolio data and produces one
page whose row count equals the number of distinct groups. -/
def exposures_pnl_section (multi_portfolio_data : MultiPortfolioData)
    (enabled : Bool) (strategy_idx benchmark_idx : Nat) (kwargs : Kwargs)
    (regime_benchmark : String) : Except PyErr (List Figure) :=
  if enabled then do
    let _sd ← eIndex multi_portfolio_data.portfolio_datas strategy_idx
    let _bd ← eIndex multi_portfolio_data.portfolio_datas benchmark_idx
    pure [pnl_attribution_fig kwargs regime_benchmark multi_portfolio_data.groupKeys]
  else pure []

/-- Keyword parameters of `generate_strategy_benchmark_factsheet_plt` with the
source defaults (lines 21-39). -/
structure FactsheetArgs where
  strategy_idx : Nat := 0
  benchmark_idx : Nat := 1
  time_period : TP := .noneTP
  backtest_name : Option String := none
  add_benchmarks_to_navs : Bool := false
  add_brinson_attribution : Bool := true
  add_exposures_pnl_attribution : Bool := false
  add_strategy_factsheet : Bool := false
  add_grouped_exposures : Bool := false
  add_grouped_cum_pnl : Bool := false
  add_tracking_error_table : Bool := false
  add_exposures_comp : Bool := false
  is_grouped : Option Bool := none
  fontsize : Nat := 4
  kwargs : Kwargs := []
deriving DecidableEq, Repr

/-- Embedding of `generate_strategy_benchmark_factsheet_plt` (lines 21-346).
The explicit `ValueError` guard fires exactly on `len(portfolio_datas) == 1`;
Python indexings of the body are modelled with `eIndex`.  The accesses
`portfolio_datas[0]` (lines 51 and 58) and `portfolio_datas[1]` (line 157) are
hoisted before the pure page assembly; this is observationally equivalent
because the assembly itself raises nothing and every indexing failure raises
the same `IndexError`. -/
def generate_strategy_benchmark_factsheet_plt
    (multi_portfolio_data : MultiPortfolioData) (a : FactsheetArgs) :
    Except PyErr (List Figure) :=
  if multi_portfolio_data.portfolio_datas.length = 1 then
    .error (.valueError "must be at least two strategies")
  else do
    let p0 ← eIndex multi_portfolio_data.portfolio_datas 0
    let is_grouped := resolve_is_grouped a.is_grouped p0
    let time_period := match a.time_period with
      | .noneTP => .fromNav
      | t => t
    let kwargs := update_kwargs a.kwargs (factsheet_plot_kwargs a.fontsize time_period)
    let regime_benchmark ← eIndex multi_portfolio_data.benchmarkPricesColumns 0
    let _p1 ← eIndex multi_portfolio_data.portfolio_datas 1
    let mainFig := factsheet_main_fig kwargs a.fontsize is_grouped
      a.add_benchmarks_to_navs regime_benchmark
      multi_portfolio_data.inferredBenchmarkFreq time_period
    let brinsonFigs := if a.add_brinson_attribution then
        [brinson_fig kwargs a.strategy_idx a.benchmark_idx regime_benchmark]
      else []
    let treFigs := if a.add_tracking_error_table then [tracking_error_fig kwargs] else []
    let compFigs ← exposures_comp_section multi_portfolio_data a.add_exposures_comp
      a.strategy_idx a.benchmark_idx kwargs
    let pnlFigs ← exposures_pnl_section multi_portfolio_data
      a.add_exposures_pnl_attribution a.strategy_idx a.benchmark_idx kwargs
      regime_benchmark
    let sfFigs := if a.add_strategy_factsheet then
        multi_portfolio_data.portfolio_datas.map
          (fun pd => generate_strategy_factsheet pd (update_kwargs kwargs
            [("add_grouped_exposures", .bool a.add_grouped_exposures),
             ("add_grouped_cum_pnl", .bool a.add_grouped_cum_pnl),
             ("is_grouped", .bool is_grouped)]))
      else []
    pure ([mainFig] ++ brinsonFigs ++ treFigs ++ compFigs ++ pnlFigs ++ sfFigs)

/-- Value of an optional Python string argument as stored in a kwargs dict. -/
def optStrVal : Option String → PVal
  | some s => .str s
  | none => .pyNone

/-- Rendering of an optional string inside an interpolated title. -/
def freqStr : Option String → String
  | some s => s
  | none => "None"

/-- Report-specific style defaults of
`generate_strategy_benchmark_active_perf_plt` (lines 372-379); unlike the
factsheet variant, `time_period` may still be `None` here. -/
def active_plot_kwargs (fontsize : Nat) (time_period : TP) : Kwargs :=
  [("fontsize", .num fontsize), ("linewidth", .num 1),
   ("digits_to_show", .num 1), ("sharpe_digits", .num 2),
   ("weight", .str "normal"), ("markersize", .num 1),
   ("framealpha", .num (3/4)), ("time_period", .tp time_period),
   ("perf_stats_labels", .obj "PerfStatsLabels.DETAILED_WITH_DD.value")]

/-- Keyword dictionary for the two weight boxplots (lines 424-428): the x-axis
labels are rotated by 90 degrees ("make horizontal is too many instruments")
exactly when the first portfolio's instrument price table has strictly more
than 9 columns. -/
def active_local_kwargs (kwargs : Kwargs) (p0 : PortfolioData) : Kwargs :=
  if 9 < p0.pricesColumns.length then
    update_kwargs kwargs
      [("x_rotation", .num 90), ("add_hue_to_legend_title", .bool false)]
  else
    update_kwargs kwargs [("add_hue_to_legend_title", .bool false)]

/-- One weight boxplot call (lines 430-436 and 440-446). -/
def weights_boxplot_call (local_kwargs : Kwargs) (strategy_idx benchmark_idx : Nat)
    (weight_freq : Option String) (is_grouped : Bool) (title : String)
    (cell : Cell) : Call :=
  mkCall "plot_weights_boxplot" [some cell]
    (update_kwargs local_kwargs
      [("strategy_idx", .num strategy_idx), ("benchmark_idx", .num benchmark_idx),
       ("freq", optStrVal weight_freq), ("is_grouped", .bool is_grouped),
       ("title", .str title)])

/-- Cumulative Brinson component panel plus its regime shadows
(lines 407-421). -/
def active_component_calls (kwargs : Kwargs) (regime_benchmark : String)
    (title : String) (cell : Cell) : List Call :=
  [ mkCall "qis.plot_time_series" [some cell]
      (update_kwargs kwargs
        [("title", .str title), ("var_format", .str "\x7b:.1%\x7d"),
         ("legend_labels", .obj "terminal cumulative values")]),
    mkCall "add_regime_shadows" [some cell]
      [("regime_benchmark", .str regime_benchmark),
       ("regime_params", .obj "regime_params")] ]

/-- Primary 3×2 page of `generate_strategy_benchmark_active_perf_plt`
(lines 383-448): NAV, the two-term Brinson attribution computation, the three
cumulative component panels, and the two weight boxplots (with an optional
long-only floor on the y-axis). -/
def active_main_fig (kwargs local_kwargs : Kwargs) (strategy_idx benchmark_idx : Nat)
    (weight_freq : Option String) (is_long_only : Bool) (regime_benchmark : String)
    (time_period : TP) : Figure :=
  { nrows := 3, ncols := 2, calls :=
    [ mkCall "plot_nav" [some ⟨0, 1, 0, 1⟩]
        (update_kwargs kwargs
          [("regime_benchmark", .str regime_benchmark),
           ("perf_params", .obj "perf_params"),
           ("regime_params", .obj "regime_params"),
           ("title", .str "Cumulative performance")]),
      mkCall "compute_brinson_attribution" []
        [("strategy_idx", .num strategy_idx), ("benchmark_idx", .num benchmark_idx),
         ("freq", .pyNone), ("time_period", .tp time_period),
         ("is_exclude_interaction_term", .bool true)] ] ++
    active_component_calls kwargs regime_benchmark
      "Active total return (Brinson attribution)" ⟨0, 1, 1, 2⟩ ++
    active_component_calls kwargs regime_benchmark
      "Asset class allocation return" ⟨1, 2, 1, 2⟩ ++
    active_component_calls kwargs regime_benchmark
      "Instrument selection return" ⟨2, 3, 1, 2⟩ ++
    [ weights_boxplot_call local_kwargs strategy_idx benchmark_idx weight_freq true
        ("Boxplot of weights by groups at " ++ freqStr weight_freq ++ "-freq")
        ⟨1, 2, 0, 1⟩ ] ++
    (if is_long_only then
      [mkCall "qis.set_y_limits" [some ⟨1, 2, 0, 1⟩] [("y_limits", .obj "(0, None)")]]
     else []) ++
    [ weights_boxplot_call local_kwargs strategy_idx benchmark_idx weight_freq false
        ("Boxplot of weights by instruments at " ++ freqStr weight_freq ++ "-freq")
        ⟨2, 3, 0, 1⟩ ] ++
    (if is_long_only then
      [mkCall "qis.set_y_limits" [some ⟨2, 3, 0, 1⟩] [("y_limits", .obj "(0, None)")]]
     else []) }

/-- Keyword parameters of `generate_strategy_benchmark_active_perf_plt` with
the source defaults (lines 349-363). -/
structure ActivePerfArgs where
  strategy_idx : Nat := 0
  benchmark_idx : Nat := 1
  time_period : TP := .noneTP
  backtest_name : Option String := none
  weight_freq : Option String := some "ME"
  add_strategy_factsheet : Bool := false
  add_grouped_exposures : Bool := false
  add_grouped_cum_pnl : Bool := false
  is_long_only : Bool := false
  fontsize : Nat := 8
  kwargs : Kwargs := []
deriving DecidableEq, Repr

/-- Embedding of `generate_strategy_benchmark_active_perf_plt`
(lines 349-461): the same explicit `ValueError` guard on
`len(portfolio_datas) == 1`, then a single 3×2 page (plus optional
per-portfolio sub-factsheets). -/
def generate_strategy_benchmark_active_perf_plt
    (multi_portfolio_data : MultiPortfolioData) (a : ActivePerfArgs) :
    Except PyErr (List Figure) :=
  if multi_portfolio_data.portfolio_datas.length = 1 then
    .error (.valueError "must be at least two strategies")
  else do
    let kwargs := update_kwargs a.kwargs (active_plot_kwargs a.fontsize a.time_period)
    let regime_benchmark ← eIndex multi_portfolio_data.benchmarkPricesColumns 0
    let p0 ← eIndex multi_portfolio_data.portfolio_datas 0
    let local_kwargs := active_local_kwargs kwargs p0
    let mainFig := active_main_fig kwargs local_kwargs a.strategy_idx a.benchmark_idx
      a.weight_freq a.is_long_only regime_benchmark a.time_period
    let sfFigs := if a.add_strategy_factsheet then
        multi_portfolio_data.portfolio_datas.map
          (fun pd => generate_strategy_factsheet pd (update_kwargs kwargs
            [("add_grouped_exposures", .bool a.add_grouped_exposures),
             ("add_grouped_cum_pnl", .bool a.add_grouped_cum_pnl)]))
      else []
    pure ([mainFig] ++ sfFigs)

/-- Embedding of `generate_performance_attribution_report` (lines 464-500):
no validation and no indexing happens in this layer, so the function is
total; the portfolio ids of the two attribution panels are hard-coded
literals `[0]` and `[1]` and do not depend on the input data. -/
def generate_performance_attribution_report (_multi_portfolio_data : MultiPortfolioData)
    (time_period : TP) (kwargs : Kwargs) : List Figure :=
  [ { nrows := 3, ncols := 2, calls :=
      [ mkCall "plot_nav" [some ⟨0, 1, 0, 2⟩]
          (update_kwargs kwargs [("time_period", .tp time_period)]),
        mkCall "plot_performance_attribution" [some ⟨1, 2, 0, 2⟩]
          (update_kwargs kwargs
            [("portfolio_ids", .natList [0]), ("time_period", .tp time_period),
             ("attribution_metric", .obj "AttributionMetric.PNL")]),
        mkCall "plot_performance_attribution" [some ⟨2, 3, 0, 2⟩]
          (update_kwargs kwargs
            [("portfolio_ids", .natList [1]), ("time_period", .tp time_period),
             ("attribution_metric", .obj "AttributionMetric.PNL")]) ] },
    { nrows := 1, ncols := 1, calls :=
      [ mkCall "plot_performance_periodic_table" [some ⟨0, 1, 0, 1⟩]
          (update_kwargs kwargs
            [("portfolio_ids", .natList [0]), ("time_period", .tp time_period),
             ("attribution_metric", .obj "AttributionMetric.INST_PNL"),
             ("freq", .str "ME")]) ] } ]

/-- Embedding of the module-level helper `plot_exposures` (lines 657-685):
a stacked bar plot of the short-grouping exposures on the first axis and a
per-column boxplot of the long-grouping exposures on the second. -/
def plot_exposures (exposures_short exposures_long : String) (axs : List Ax)
    (ylabel : String) (var_format : String) (kwargs : Kwargs) : List Call :=
  [ mkCall "qis.plot_stack" [axs.getD 0 none]
      (update_kwargs (update_kwargs kwargs
          [("bbox_to_anchor", .obj "(0.5, 1.01)"), ("ncols", .num 1),
           ("framealpha", .num (9/10))])
        [("df", .obj exposures_short), ("use_bar_plot", .bool true),
         ("legend_stats", .obj "LegendStats.AVG_NONNAN_LAST"),
         ("var_format", .str var_format),
         ("colors", .obj "get_n_sns_colors")]),
    mkCall "qis.df_boxplot_by_columns" [axs.getD 1 none]
      (update_kwargs kwargs
        [("df", .obj exposures_long), ("hue_var_name", .str "asset class"),
         ("y_var_name", .str ylabel), ("ylabel", .str ylabel),
         ("showmedians", .bool true), ("add_y_median_labels", .bool true),
         ("yvar_format", .str var_format), ("x_rotation", .num 90),
         ("colors", .obj "get_n_sns_colors"),
         ("y_limits", .obj "(0.0, None)")]) ]

/-- Keyword parameters of `weights_tracking_error_report` with the source
defaults (lines 503-516).  The `group_data`/`group_order` parameters (and
their short-grouping variants) are opaque pandas objects that are only
forwarded to collaborator calls, so they are not carried in the model. -/
structure WTEArgs where
  strategy_idx : Nat := 0
  benchmark_idx : Nat := 1
  time_period : TP := .noneTP
  add_benchmarks_to_navs : Bool := true
  var_format : String := "\x7b:.1%\x7d"
  kwargs : Kwargs := []
deriving DecidableEq, Repr

/-- Embedding of `weights_tracking_error_report` (lines 503-654).  Note that
this function performs no portfolio-count validation: the only failures this
layer itself can raise are the `IndexError` of `benchmark_prices.columns[0]`
(line 519) and of `portfolio_datas[strategy_idx]` / `portfolio_datas[benchmark_idx]`
(lines 551 and 588).  It returns the named figure mapping and the named
mapping of underlying numeric tables (`dfs` holds exactly three tables:
lines 548, 575 and 613). -/
def weights_tracking_error_report (multi_portfolio_data : MultiPortfolioData)
    (a : WTEArgs) :
    Except PyErr (List (String × Figure) × List (String × Table)) := do
  let regime_benchmark ← eIndex multi_portfolio_data.benchmarkPricesColumns 0
  let navsFig : Figure :=
    { nrows := 1, ncols := 1, calls :=
      [ mkCall "plot_nav" [some ⟨0, 1, 0, 1⟩]
          (update_kwargs a.kwargs
            [("regime_benchmark", .str regime_benchmark),
             ("time_period", .tp a.time_period),
             ("perf_params", .obj "perf_params"),
             ("regime_params", .obj "regime_params"),
             ("add_benchmarks_to_navs", .bool a.add_benchmarks_to_navs),
             ("title", .obj "cumulative-performance regime title")]) ] }
  let raFig : Figure :=
    { nrows := 1, ncols := 1, calls :=
      [ mkCall "plot_ra_perf_table" [some ⟨0, 1, 0, 1⟩]
          (update_kwargs a.kwargs
            [("benchmark_price", .obj "benchmark_price"),
             ("add_benchmarks_to_navs", .bool a.add_benchmarks_to_navs),
             ("perf_params", .obj "perf_params"),
             ("time_period", .tp a.time_period),
             ("add_turnover", .bool true)]) ] }
  let _sd ← eIndex multi_portfolio_data.portfolio_datas a.strategy_idx
  let strategyWeightsFig : Figure :=
    { nrows := 1, ncols := 2, calls :=
      plot_exposures "exposures_short" "exposures_long"
        [some ⟨0, 1, 0, 1⟩, some ⟨0, 1, 1, 2⟩] "Weights" a.var_format a.kwargs }
  let strategyVarFig : Figure :=
    { nrows := 1, ncols := 2, calls :=
      plot_exposures "risk_contributions_short" "risk_contributions_long"
        [some ⟨0, 1, 0, 1⟩, some ⟨0, 1, 1, 2⟩] "Risk Contributions" a.var_format
        a.kwargs }
  let _bd ← eIndex multi_portfolio_data.portfolio_datas a.benchmark_idx
  let benchmarkWeightsFig : Figure :=
    { nrows := 1, ncols := 2, calls :=
      plot_exposures "benchmark_exposures_short" "benchmark_exposures_long"
        [some ⟨0, 1, 0, 1⟩, some ⟨0, 1, 1, 2⟩] "Weights" a.var_format a.kwargs }
  let benchmarkVarFig : Figure :=
    { nrows := 1, ncols := 2, calls :=
      plot_exposures "benchmark_risk_contributions_short"
        "benchmark_risk_contributions_long"
        [some ⟨0, 1, 0, 1⟩, some ⟨0, 1, 1, 2⟩] "Risk Contributions" a.var_format
        a.kwargs }
  let turnoverFig : Figure :=
    { nrows := 1, ncols := 1, calls :=
      [ mkCall "plot_turnover" [some ⟨0, 1, 0, 1⟩]
          (update_kwargs a.kwargs [("time_period", .tp a.time_period)]) ] }
  let treFig : Figure :=
    { nrows := 1, ncols := 1, calls :=
      [ mkCall "plot_tre_time_series" [some ⟨0, 1, 0, 1⟩]
          (update_kwargs a.kwargs
            [("strategy_idx", .num a.strategy_idx),
             ("benchmark_idx", .num a.benchmark_idx),
             ("time_period", .tp a.time_period)]) ] }
  let brinsonFig : Figure :=
    { nrows := 1, ncols := 2, calls :=
      [ mkCall "plot_brinson_attribution"
          [some ⟨0, 1, 0, 1⟩, some ⟨0, 1, 1, 2⟩, none, none, none]
          (update_kwargs a.kwargs
            [("strategy_idx", .num a.strategy_idx),
             ("benchmark_idx", .num a.benchmark_idx),
             ("time_period", .tp a.time_period), ("freq", .pyNone),
             ("total_column", .str "Total Sum"),
             ("is_exclude_interaction_term", .bool true)]) ] }
  pure ([("navs", navsFig), ("ra_table", raFig),
         ("strategy_weights", strategyWeightsFig), ("strategy_var", strategyVarFig),
         ("benchmark_weights", benchmarkWeightsFig), ("benchmark_var", benchmarkVarFig),
         ("turnover", turnoverFig), ("tre_time_series", treFig),
         ("brinson", brinsonFig)],
        [("ra_perf_table", ⟨"plot_ra_perf_table"⟩),
         ("strategy_risk_contributions",
          ⟨"portfolio_datas[strategy_idx].compute_risk_contributions_implied_by_covar"⟩),
         ("benchmark_risk_contributions",
          ⟨"portfolio_datas[benchmark_idx].compute_risk_contributions_implied_by_covar"⟩)])

/-- Report-specific style defaults of `generate_multi_portfolio_factsheet`
(multi_strategy_factsheet.py lines 33-38), merged over the caller's kwargs on
line 39; unlike the factsheet variant there is no `time_period` entry here. -/
def multi_plot_kwargs : Kwargs :=
  [("fontsize", .num 5), ("linewidth", .num (1/2)),
   ("digits_to_show", .num 1), ("sharpe_digits", .num 2),
   ("weight", .str "normal"), ("markersize", .num 1),
   ("framealpha", .num (3/4))]

/-- Single 7×4 page of `generate_multi_portfolio_factsheet`
(multi_strategy_factsheet.py lines 41-140), one entry per collaborator call
in source order; `time_period` is forwarded explicitly to every call. -/
def multi_portfolio_fig (kwargs : Kwargs) (regime_benchmark : String)
    (time_period : TP) : Figure :=
  { nrows := 7, ncols := 4, calls :=
    [ mkCall "plot_nav" [some ⟨0, 1, 0, 2⟩]
        (update_kwargs kwargs
          [("time_period", .tp time_period), ("benchmark", .str regime_benchmark),
           ("perf_params", .obj "perf_params"),
           ("regime_params", .obj "regime_params"),
           ("title", .str "Cumulative performance")]),
      mkCall "plot_drawdowns" [some ⟨1, 2, 0, 2⟩]
        (update_kwargs kwargs
          [("time_period", .tp time_period), ("benchmark", .str regime_benchmark),
           ("regime_params", .obj "regime_params"),
           ("title", .str "Running Drawdowns")]),
      mkCall "plot_rolling_time_under_water" [some ⟨2, 3, 0, 2⟩]
        (update_kwargs kwargs
          [("time_period", .tp time_period), ("benchmark", .str regime_benchmark),
           ("regime_params", .obj "regime_params"),
           ("title", .str "Rolling time under water")]),
      mkCall "plot_exposures" [some ⟨3, 4, 0, 2⟩]
        (update_kwargs kwargs
          [("portfolio_idx", .num 0), ("time_period", .tp time_period),
           ("benchmark", .str regime_benchmark),
           ("regime_params", .obj "regime_params")]),
      mkCall "plot_turnover" [some ⟨4, 5, 0, 2⟩]
        (update_kwargs kwargs
          [("time_period", .tp time_period), ("benchmark", .str regime_benchmark),
           ("regime_params", .obj "regime_params")]),
      mkCall "plot_costs" [some ⟨5, 6, 0, 2⟩]
        (update_kwargs kwargs
          [("time_period", .tp time_period), ("benchmark", .str regime_benchmark),
           ("regime_params", .obj "regime_params")]),
      mkCall "plot_factor_betas" [some ⟨6, 7, 0, 2⟩]
        (update_kwargs kwargs
          [("benchmark_prices", .obj "benchmark_prices"),
           ("time_period", .tp time_period), ("benchmark", .str regime_benchmark),
           ("regime_params", .obj "regime_params")]),
      mkCall "plot_performance_bars" [some ⟨0, 1, 2, 3⟩]
        (update_kwargs (update_kwargs kwargs [("fontsize", .num 5)])
          [("perf_params", .obj "perf_params"),
           ("perf_column", .obj "PerfStat.SHARPE"),
           ("time_period", .tp time_period)]),
      mkCall "plot_performance_bars" [some ⟨0, 1, 3, 4⟩]
        (update_kwargs (update_kwargs kwargs [("fontsize", .num 5)])
          [("perf_params", .obj "perf_params"),
           ("perf_column", .obj "PerfStat.MAX_DD"),
           ("time_period", .tp time_period)]),
      mkCall "plot_periodic_returns" [some ⟨1, 2, 2, 4⟩]
        (update_kwargs (update_kwargs kwargs
            [("date_format", .str "%Y"), ("fontsize", .num 5)])
          [("heatmap_freq", .str "A"), ("time_period", .tp time_period)]),
      mkCall "plot_ra_perf_table" [some ⟨2, 3, 2, 4⟩]
        (update_kwargs (update_kwargs kwargs [("fontsize", .num 5)])
          [("perf_params", .obj "perf_params"),
           ("time_period", .tp time_period)]),
      mkCall "plot_ra_perf_table" [some ⟨3, 4, 2, 4⟩]
        (update_kwargs (update_kwargs kwargs [("fontsize", .num 5)])
          [("perf_params", .obj "perf_params"),
           ("time_period", .tp (.shiftYears time_period 1))]),
      mkCall "plot_regime_data" [some ⟨4, 5, 2, 4⟩]
        (update_kwargs kwargs
          [("is_grouped", .bool false), ("time_period", .tp time_period),
           ("perf_params", .obj "perf_params"),
           ("regime_params", .obj "regime_params"),
           ("benchmark", .str regime_benchmark)]),
      mkCall "plot_returns_scatter" [some ⟨5, 6, 2, 4⟩]
        (update_kwargs kwargs
          [("time_period", .tp time_period),
           ("benchmark", .str regime_benchmark)]),
      mkCall "plot_corr_table" [some ⟨6, 7, 2, 4⟩]
        (update_kwargs (update_kwargs kwargs [("fontsize", .num 4)])
          [("time_period", .tp time_period), ("freq", .str "W-WED")]) ] }

/-- Embedding of `generate_multi_portfolio_factsheet`
(multi_strategy_factsheet.py lines 19-140).  The column access
`benchmark_prices.columns[0]` on line 30 precedes the figure allocation
(line 41) and every drawing call, so an empty benchmark price table fails
before any page content is drawn; with at least one column the first column
becomes the regime benchmark used by the page's calls.  The default
`n_years=1` of `qis.get_time_period_shifted_by_years` (not under src/) is
modelled from the spec: the second risk-adjusted table uses "a one-year
shifted window". -/
def generate_multi_portfolio_factsheet (multi_portfolio_data : MultiPortfolioData)
    (time_period : TP) (kwargs₀ : Kwargs) : Except PyErr Figure := do
  let regime_benchmark ← eIndex multi_portfolio_data.benchmarkPricesColumns 0
  let kwargs := update_kwargs kwargs₀ multi_plot_kwargs
  pure (multi_portfolio_fig kwargs regime_benchmark time_period)

/-- Factsheet arguments with every optional-section toggle disabled. -/
def offArgs : FactsheetArgs := { add_brinson_attribution := false }

/-- Concrete sample portfolios used by closed witnesses and counterexamples. -/
def pdStrat : PortfolioData := ⟨"STRAT", ["A", "B", "C"], ["A", "B", "C"]⟩

def pdBench : PortfolioData := ⟨"BENCH", ["A", "B", "C"], ["A", "B", "C"]⟩

def pdThird : PortfolioData := ⟨"THIRD", ["A"], ["A"]⟩

def mpdTwo : MultiPortfolioData :=
  ⟨[pdStrat, pdBench], ["SPY"], some "B", ["A", "B"], ["G1", "G2"]⟩

def mpdOne : MultiPortfolioData := ⟨[pdStrat], ["SPY"], some "B", ["A"], ["G1"]⟩

def mpdZero : MultiPortfolioData := ⟨[], ["SPY"], none, [], []⟩

def mpdThree : MultiPortfolioData :=
  ⟨[pdStrat, pdBench, pdThird], ["SPY"], some "D", ["A"], ["G1"]⟩

/-- Helper: the exposures/turnover comparison section never raises the
`ValueError` precondition failure. -/
theorem comp_section_noVE (mpd : MultiPortfolioData) (e : Bool) (si bi : Nat)
    (ks : Kwargs) : raisesVE (exposures_comp_section mpd e si bi ks) = false := by
  unfold exposures_comp_section
  split
  · apply raisesVE_bind _ _ (raisesVE_eIndex _ _)
    intro s
    apply raisesVE_bind _ _ (raisesVE_eIndex _ _)
    intro t
    exact raisesVE_pure _
  · exact raisesVE_pure _

/-- Helper: the grouped exposures/P&L section never raises the `ValueError`
precondition failure. -/
theorem pnl_section_noVE (mpd : MultiPortfolioData) (e : Bool) (si bi : Nat)
    (ks : Kwargs) (rb : String) :
    raisesVE (exposures_pnl_section mpd e si bi ks rb) = false := by
  unfold exposures_pnl_section
  split
  · apply raisesVE_bind _ _ (raisesVE_eIndex _ _)
    intro s
    apply raisesVE_bind _ _ (raisesVE_eIndex _ _)
    intro t
    exact raisesVE_pure _
  · exact raisesVE_pure _

/-- Helper: with a portfolio count other than one, the factsheet never raises
the `ValueError` precondition failure (any remaining failure is an
`IndexError`). -/
theorem factsheet_noVE (mpd : MultiPortfolioData) (a : FactsheetArgs)
    (h : mpd.portfolio_datas.length ≠ 1) :
    raisesVE (generate_strategy_benchmark_factsheet_plt mpd a) = false := by
  unfold generate_strategy_benchmark_factsheet_plt
  rw [if_neg h]
  apply raisesVE_bind _ _ (raisesVE_eIndex _ _)
  intro p0
  apply raisesVE_bind _ _ (raisesVE_eIndex _ _)
  intro rb
  apply raisesVE_bind _ _ (raisesVE_eIndex _ _)
  intro p1
  apply raisesVE_bind _ _ (comp_section_noVE _ _ _ _ _)
  intro compFigs
  apply raisesVE_bind _ _ (pnl_section_noVE _ _ _ _ _ _)
  intro pnlFigs
  exact raisesVE_pure _

/-- Helper: same statement for the active-performance report. -/
theorem active_noVE (mpd : MultiPortfolioData) (a : ActivePerfArgs)
    (h : mpd.portfolio_datas.length ≠ 1) :
    raisesVE (generate_strategy_benchmark_active_perf_plt mpd a) = false := by
  unfold generate_strategy_benchmark_active_perf_plt
  rw [if_neg h]
  apply raisesVE_bind _ _ (raisesVE_eIndex _ _)
  intro rb
  apply raisesVE_bind _ _ (raisesVE_eIndex _ _)
  intro p0
  exact raisesVE_pure _

/-- Helper: `weights_tracking_error_report` never raises the `ValueError`
precondition failure, whatever the input. -/
theorem wte_noVE (mpd : MultiPortfolioData) (a : WTEArgs) :
    raisesVE (weights_tracking_error_report mpd a) = false := by
  unfold weights_tracking_error_report
  apply raisesVE_bind _ _ (raisesVE_eIndex _ _)
  intro rb
  apply raisesVE_bind _ _ (raisesVE_eIndex _ _)
  intro sd
  apply raisesVE_bind _ _ (raisesVE_eIndex _ _)
  intro bd
  exact raisesVE_pure _

/-- C1 (counterexample): the claim says every comparison-style entry point —
including `weights_tracking_error_report` — raises the `ValueError`
precondition failure whenever fewer than two portfolios are supplied.  On a
one-portfolio input `weights_tracking_error_report` raises no `ValueError`
(it has no guard at all), and on a zero-portfolio input
`generate_strategy_benchmark_factsheet_plt` raises no `ValueError` either
(its guard tests `len == 1`). -/
theorem C1_counterexample :
    mpdOne.portfolio_datas.length = 1 ∧
    raisesVE (weights_tracking_error_report mpdOne {}) = false ∧
    mpdZero.portfolio_datas.length = 0 ∧
    raisesVE (generate_strategy_benchmark_factsheet_plt mpdZero {}) = false :=
  ⟨rfl, rfl, rfl, rfl⟩

/-- C1 (amended): `generate_strategy_benchmark_factsheet_plt` and
`generate_strategy_benchmark_active_perf_plt` raise the `ValueError`
precondition failure exactly when `portfolio_datas` has exactly one element
(with zero elements the guard does not fire and the failure, if any, is an
`IndexError`); `weights_tracking_error_report` never raises it. -/
theorem C1_amended_precondition_guard (mpd : MultiPortfolioData)
    (aF : FactsheetArgs) (aA : ActivePerfArgs) (aW : WTEArgs) :
    (raisesVE (generate_strategy_benchmark_factsheet_plt mpd aF) = true ↔
      mpd.portfolio_datas.length = 1) ∧
    (raisesVE (generate_strategy_benchmark_active_perf_plt mpd aA) = true ↔
      mpd.portfolio_datas.length = 1) ∧
    raisesVE (weights_tracking_error_report mpd aW) = false := by
  refine ⟨⟨fun h => ?_, fun h => ?_⟩, ⟨fun h => ?_, fun h => ?_⟩, wte_noVE mpd aW⟩
  · by_contra hne
    rw [factsheet_noVE mpd aF hne] at h
    exact Bool.false_ne_true h
  · unfold generate_strategy_benchmark_factsheet_plt
    rw [if_pos h]
    rfl
  · by_contra hne
    rw [active_noVE mpd aA hne] at h
    exact Bool.false_ne_true h
  · unfold generate_strategy_benchmark_active_perf_plt
    rw [if_pos h]
    rfl

/-- C3: in `generate_strategy_benchmark_factsheet_plt`, when `is_grouped` is
left as `None`, grouped display mode is selected iff the first portfolio's
weight table has at least ten columns — exactly 10 weighted instruments select
grouped mode, exactly 9 do not — and a non-`None` `is_grouped` argument is
used unchanged. -/
theorem C3_grouped_mode_auto_selection (p0 : PortfolioData) (b : Bool) :
    (p0.weightsColumns.length = 10 → resolve_is_grouped none p0 = true) ∧
    (p0.weightsColumns.length = 9 → resolve_is_grouped none p0 = false) ∧
    (resolve_is_grouped none p0 = true ↔ 10 ≤ p0.weightsColumns.length) ∧
    resolve_is_grouped (some b) p0 = b := by
  refine ⟨fun h10 => ?_, fun h9 => ?_, ?_, rfl⟩
  · have h : 10 ≤ p0.weightsColumns.length := by omega
    simp [resolve_is_grouped, h]
  · have h : ¬ 10 ≤ p0.weightsColumns.length := by omega
    simp [resolve_is_grouped, h]
  · by_cases h : 10 ≤ p0.weightsColumns.length <;> simp [resolve_is_grouped, h]

/-- C3 (witness): a ten-column weight table selects grouped mode, a
nine-column one does not. -/
theorem C3_grouped_mode_auto_selection_witness :
    resolve_is_grouped none ⟨"P", List.replicate 10 "w", ["a"]⟩ = true ∧
    resolve_is_grouped none ⟨"P", List.replicate 9 "w", ["a"]⟩ = false :=
  ⟨(C3_grouped_mode_auto_selection ⟨"P", List.replicate 10 "w", ["a"]⟩ true).1
      (by decide),
   (C3_grouped_mode_auto_selection ⟨"P", List.replicate 9 "w", ["a"]⟩ true).2.1
      (by decide)⟩

/-- C6: with all optional-section toggles off the factsheet returns exactly
one page; enabling `add_brinson_attribution` alone adds exactly one page, and
enabling `add_strategy_factsheet` alone adds exactly one page per portfolio
(shown for arbitrary two- and three-portfolio inputs). -/
theorem C6_optional_section_page_counts (p0 p1 p2 : PortfolioData) (b : String)
    (bs : List String) (fr : Option String) (aw gk : List String) :
    Except.map List.length
        (generate_strategy_benchmark_factsheet_plt ⟨[p0, p1], b :: bs, fr, aw, gk⟩
          offArgs) = .ok 1 ∧
    Except.map List.length
        (generate_strategy_benchmark_factsheet_plt ⟨[p0, p1], b :: bs, fr, aw, gk⟩
          { offArgs with add_brinson_attribution := true }) = .ok 2 ∧
    Except.map List.length
        (generate_strategy_benchmark_factsheet_plt ⟨[p0, p1], b :: bs, fr, aw, gk⟩
          { offArgs with add_strategy_factsheet := true }) = .ok 3 ∧
    Except.map List.length
        (generate_strategy_benchmark_factsheet_plt ⟨[p0, p1, p2], b :: bs, fr, aw, gk⟩
          offArgs) = .ok 1 ∧
    Except.map List.length
        (generate_strategy_benchmark_factsheet_plt ⟨[p0, p1, p2], b :: bs, fr, aw, gk⟩
          { offArgs with add_strategy_factsheet := true }) = .ok 4 :=
  ⟨rfl, rfl, rfl, rfl, rfl⟩

/-- C7: when `add_brinson_attribution` is enabled, the appended Brinson page
(the second returned figure) is a 3×2 grid whose attribution call is wired to
exactly five axes, all of them real cells, and is invoked with the
interaction term excluded (`is_exclude_interaction_term=True`, i.e. a
two-term decomposition). -/
theorem C7_brinson_page_structure (p0 p1 : PortfolioData)
    (rest : List PortfolioData) (b : String) (bs : List String)
    (fr : Option String) (aw gk : List String) (ks : Kwargs) :
    ∃ figs fig c,
      generate_strategy_benchmark_factsheet_plt ⟨p0 :: p1 :: rest, b :: bs, fr, aw, gk⟩
          { offArgs with add_brinson_attribution := true, kwargs := ks } = .ok figs ∧
      figs.get? 1 = some fig ∧
      fig.nrows = 3 ∧ fig.ncols = 2 ∧
      fig.calls.get? 0 = some c ∧
      c.method = "plot_brinson_attribution" ∧
      c.cells.length = 5 ∧
      c.cells.all Option.isSome = true ∧
      lookupKw c.kwargs "is_exclude_interaction_term" = some (.bool true) := by
  refine ⟨_, _, _, rfl, rfl, rfl, rfl, rfl, rfl, rfl, rfl, ?_⟩
  dsimp only [mkCall]
  rw [lookupKw_update_kwargs]
  rfl

/-- C2 (counterexample): the claim says a caller-supplied style option always
survives the merge with the function's own defaults.  A caller-supplied
`linewidth=2` is overridden by the factsheet's default `linewidth=0.5` in the
configuration forwarded to the first plotting call, because the function's
defaults are merged last (`qis.update_kwargs(kwargs, plot_kwargs)`). -/
theorem C2_counterexample :
    firstCallKwarg
        (generate_strategy_benchmark_factsheet_plt mpdTwo
          { offArgs with kwargs := [("linewidth", PVal.num 2)] })
        "linewidth" = some (.num (1/2)) ∧
    ¬ (some (PVal.num (1/2)) = some (PVal.num 2)) :=
  ⟨rfl, by norm_num⟩

/-- C2 (amended): the merge `qis.update_kwargs(kwargs, plot_kwargs)` gives
precedence to the function's own report-specific defaults on every colliding
key (e.g. `linewidth` is always 0.5 afterwards); a caller-supplied option
whose key does not collide with the defaults passes through unchanged.  This
holds for the default dictionaries of both cited entry points. -/
theorem C2_amended_merge_semantics (ks : Kwargs) (fontsize : Nat) (tp : TP)
    (k : String) :
    (k ∉ (factsheet_plot_kwargs fontsize tp).map Prod.fst →
      lookupKw (update_kwargs ks (factsheet_plot_kwargs fontsize tp)) k =
        lookupKw ks k) ∧
    lookupKw (update_kwargs ks (factsheet_plot_kwargs fontsize tp)) "linewidth" =
      some (.num (1/2)) ∧
    (k ∉ multi_plot_kwargs.map Prod.fst →
      lookupKw (update_kwargs ks multi_plot_kwargs) k = lookupKw ks k) ∧
    lookupKw (update_kwargs ks multi_plot_kwargs) "linewidth" =
      some (.num (1/2)) := by
  refine ⟨fun h => ?_, ?_, fun h => ?_, ?_⟩
  · rw [lookupKw_update_kwargs, lookupKw_eq_none_of_not_mem _ _ h]
  · rw [lookupKw_update_kwargs]
    rfl
  · rw [lookupKw_update_kwargs, lookupKw_eq_none_of_not_mem _ _ h]
  · rw [lookupKw_update_kwargs]
    rfl

/-- C2 (amended, witness): a non-colliding caller key passes through both
default dictionaries unchanged. -/
theorem C2_amended_merge_semantics_witness :
    lookupKw (update_kwargs [("cmap", PVal.str "Blues")]
      (factsheet_plot_kwargs 4 (.user 0))) "cmap" =
        lookupKw [("cmap", PVal.str "Blues")] "cmap" ∧
    lookupKw (update_kwargs [("cmap", PVal.str "Blues")] multi_plot_kwargs)
        "cmap" = lookupKw [("cmap", PVal.str "Blues")] "cmap" :=
  ⟨(C2_amended_merge_semantics [("cmap", PVal.str "Blues")] 4 (.user 0) "cmap").1
      (by decide),
   (C2_amended_merge_semantics [("cmap", PVal.str "Blues")] 4 (.user 0)
      "cmap").2.2.1 (by decide)⟩

/-- C4: in the factsheet's primary page, the one-year-shifted risk-adjusted
performance table call (call index 8) receives weekly regression frequency
`W-WED` and annualisation factor 52 whenever the inferred native frequency of
the first benchmark price series is `B` or `D` (and its window is the
one-year-shifted period); for any other inferred frequency the configured
`freq_reg`/`alpha_an_factor` values of the merged kwargs pass through
unchanged. -/
theorem C4_regression_frequency_switch (kwargs : Kwargs) (fontsize : Nat)
    (is_grouped abn : Bool) (rb : String) (tp : TP) :
    (∀ fr : Option String, fr = some "B" ∨ fr = some "D" →
      callKwargsAt (factsheet_main_fig kwargs fontsize is_grouped abn rb fr tp) 8
          "freq_reg" = some (.str "W-WED") ∧
      callKwargsAt (factsheet_main_fig kwargs fontsize is_grouped abn rb fr tp) 8
          "alpha_an_factor" = some (.num 52) ∧
      callKwargsAt (factsheet_main_fig kwargs fontsize is_grouped abn rb fr tp) 8
          "time_period" = some (.tp (.shiftYears tp 1))) ∧
    (∀ fr : Option String, ¬ (fr = some "B" ∨ fr = some "D") →
      callKwargsAt (factsheet_main_fig kwargs fontsize is_grouped abn rb fr tp) 8
          "freq_reg" = lookupKw kwargs "freq_reg" ∧
      callKwargsAt (factsheet_main_fig kwargs fontsize is_grouped abn rb fr tp) 8
          "alpha_an_factor" = lookupKw kwargs "alpha_an_factor") := by
  constructor
  · intro fr hfr
    have key : shifted_ra_table_kwargs kwargs fr fontsize tp =
        update_kwargs kwargs
          [("time_period", .tp (.shiftYears tp 1)), ("alpha_an_factor", .num 52),
           ("freq_reg", .str "W-WED"), ("fontsize", .num fontsize)] := by
      unfold shifted_ra_table_kwargs
      rw [if_pos hfr]
    refine ⟨?_, ?_, ?_⟩ <;>
    · show lookupKw (update_kwargs (shifted_ra_table_kwargs kwargs fr fontsize tp)
          [("benchmark_price", PVal.obj "benchmark_price"),
           ("add_benchmarks_to_navs", PVal.bool abn),
           ("perf_params", PVal.obj "perf_params"),
           ("is_grouped", PVal.bool is_grouped)]) _ = _
      rw [key, lookupKw_update_kwargs, lookupKw_update_kwargs]
      rfl
  · intro fr hfr
    have key : shifted_ra_table_kwargs kwargs fr fontsize tp =
        update_kwargs kwargs
          [("time_period", .tp (.shiftYears tp 1)), ("fontsize", .num fontsize)] := by
      unfold shifted_ra_table_kwargs
      rw [if_neg hfr]
    constructor <;>
    · show lookupKw (update_kwargs (shifted_ra_table_kwargs kwargs fr fontsize tp)
          [("benchmark_price", PVal.obj "benchmark_price"),
           ("add_benchmarks_to_navs", PVal.bool abn),
           ("perf_params", PVal.obj "perf_params"),
           ("is_grouped", PVal.bool is_grouped)]) _ = _
      rw [key, lookupKw_update_kwargs, lookupKw_update_kwargs]
      rfl

/-- C4 (witness): with inferred frequency `B` the shifted table call carries
`W-WED`; with inferred frequency `W` a caller-configured `freq_reg` passes
through unchanged. -/
theorem C4_regression_frequency_switch_witness :
    callKwargsAt
        (factsheet_main_fig [] 4 false false "SPY" (some "B") (.user 0)) 8
        "freq_reg" = some (.str "W-WED") ∧
    callKwargsAt
        (factsheet_main_fig [("freq_reg", PVal.str "QE")] 4 false false "SPY"
          (some "W") (.user 0)) 8
        "freq_reg" = lookupKw [("freq_reg", PVal.str "QE")] "freq_reg" :=
  ⟨((C4_regression_frequency_switch [] 4 false false "SPY" (.user 0)).1
      (some "B") (Or.inl rfl)).1,
   ((C4_regression_frequency_switch [("freq_reg", PVal.str "QE")] 4 false false
      "SPY" (.user 0)).2 (some "W") (by decide)).1⟩

/-- C5 (counterexample): the claim says the report returns, next to its nine
named pages, a parallel mapping holding each page's underlying table.  On a
concrete two-portfolio input the figure mapping has the nine claimed keys but
the table mapping holds only three tables, so (for instance) the turnover
page has no underlying table entry. -/
theorem C5_counterexample :
    Except.map (fun r => (r.1.map Prod.fst, r.2.map Prod.fst))
        (weights_tracking_error_report mpdTwo {}) =
      .ok (["navs", "ra_table", "strategy_weights", "strategy_var",
            "benchmark_weights", "benchmark_var", "turnover", "tre_time_series",
            "brinson"],
           ["ra_perf_table", "strategy_risk_contributions",
            "benchmark_risk_contributions"]) ∧
    ¬ ("turnover" ∈ ["ra_perf_table", "strategy_risk_contributions",
                     "benchmark_risk_contributions"]) :=
  ⟨rfl, by decide⟩

/-- C5 (amended): on any input with at least two portfolios and a nonempty
benchmark column index, `weights_tracking_error_report` returns a named
figure mapping whose keys are exactly the nine pages (NAV, risk-adjusted
performance table, strategy weights, strategy risk contributions, benchmark
weights, benchmark risk contributions, turnover, tracking-error time series,
Brinson attribution) and a named table mapping holding exactly three tables:
the risk-adjusted performance table and the ungrouped strategy and benchmark
risk contributions. -/
theorem C5_amended_pages_and_tables (p0 p1 : PortfolioData)
    (rest : List PortfolioData) (b : String) (bs : List String)
    (fr : Option String) (aw gk : List String) (tp : TP) (abn : Bool)
    (vf : String) (ks : Kwargs) :
    Except.map (fun r => (r.1.map Prod.fst, r.2.map Prod.fst))
        (weights_tracking_error_report ⟨p0 :: p1 :: rest, b :: bs, fr, aw, gk⟩
          ⟨0, 1, tp, abn, vf, ks⟩) =
      .ok (["navs", "ra_table", "strategy_weights", "strategy_var",
            "benchmark_weights", "benchmark_var", "turnover", "tre_time_series",
            "brinson"],
           ["ra_perf_table", "strategy_risk_contributions",
            "benchmark_risk_contributions"]) := rfl

/-- C8 (counterexample): the claim says the first page carries one
P&L-attribution panel per named portfolio index of the input.  On a
three-portfolio input the first page still carries exactly two attribution
panels (the portfolio ids are hard-coded `[0]` and `[1]`). -/
theorem C8_counterexample :
    ((generate_performance_attribution_report mpdThree .noneTP []).head?.map
        (fun f => (f.calls.filter
          (fun c => c.method == "plot_performance_attribution")).length)) =
      some 2 ∧
    ¬ (2 = mpdThree.portfolio_datas.length) :=
  ⟨rfl, by decide⟩

/-- C8 (amended): `generate_performance_attribution_report` returns exactly
two pages: a first 3×2 page with a NAV panel followed by exactly two
P&L-attribution panels hard-coded to portfolio indices 0 and 1 (independent
of the number of portfolios in the input), and a second page holding the
periodic P&L-attribution table at monthly frequency `ME`. -/
theorem C8_amended_two_pages (mpd : MultiPortfolioData) (tp : TP) (ks : Kwargs) :
    (generate_performance_attribution_report mpd tp ks).length = 2 ∧
    (generate_performance_attribution_report mpd tp ks).map
        (fun f => f.calls.map Call.method) =
      [["plot_nav", "plot_performance_attribution", "plot_performance_attribution"],
       ["plot_performance_periodic_table"]] ∧
    (∃ f0, (generate_performance_attribution_report mpd tp ks).get? 0 = some f0 ∧
      callKwargsAt f0 1 "portfolio_ids" = some (.natList [0]) ∧
      callKwargsAt f0 2 "portfolio_ids" = some (.natList [1])) ∧
    (∃ f1, (generate_performance_attribution_report mpd tp ks).get? 1 = some f1 ∧
      callKwargsAt f1 0 "freq" = some (.str "ME") ∧
      callKwargsAt f1 0 "attribution_metric" =
        some (.obj "AttributionMetric.INST_PNL")) := by
  refine ⟨rfl, rfl, ⟨_, rfl, ?_, ?_⟩, ⟨_, rfl, ?_, ?_⟩⟩ <;>
  · show lookupKw (update_kwargs ks _) _ = _
    rw [lookupKw_update_kwargs]
    rfl

/-- C9: `generate_multi_portfolio_factsheet` fails (with the index error of
`benchmark_prices.columns[0]`, raised before any page content is assembled)
exactly when the benchmark price table has no columns; with at least one
column it returns the page built with the first column as the regime
benchmark (forwarded as the `benchmark` keyword of its calls). -/
theorem C9_benchmark_columns_guard (mpd : MultiPortfolioData) (tp : TP)
    (ks : Kwargs) :
    (mpd.benchmarkPricesColumns = [] →
      generate_multi_portfolio_factsheet mpd tp ks = .error .indexError) ∧
    (∀ b bs, mpd.benchmarkPricesColumns = b :: bs →
      generate_multi_portfolio_factsheet mpd tp ks =
        .ok (multi_portfolio_fig (update_kwargs ks multi_plot_kwargs) b tp) ∧
      callKwargsAt (multi_portfolio_fig (update_kwargs ks multi_plot_kwargs) b tp)
          0 "benchmark" = some (.str b)) := by
  constructor
  · intro h
    unfold generate_multi_portfolio_factsheet
    rw [h]
    rfl
  · intro b bs h
    constructor
    · unfold generate_multi_portfolio_factsheet
      rw [h]
      rfl
    · show lookupKw (update_kwargs (update_kwargs ks multi_plot_kwargs) _) _ = _
      rw [lookupKw_update_kwargs]
      rfl

/-- C9 (witness): an empty benchmark column index fails with the index error;
a nonempty one proceeds with its first column as the regime benchmark. -/
theorem C9_benchmark_columns_guard_witness :
    generate_multi_portfolio_factsheet ⟨[pdStrat], [], none, [], []⟩ .noneTP [] =
      .error .indexError ∧
    callKwargsAt (multi_portfolio_fig (update_kwargs [] multi_plot_kwargs) "SPY"
        .noneTP) 0 "benchmark" = some (.str "SPY") :=
  ⟨(C9_benchmark_columns_guard ⟨[pdStrat], [], none, [], []⟩ .noneTP []).1 rfl,
   ((C9_benchmark_columns_guard ⟨[pdStrat], ["SPY"], none, [], []⟩ .noneTP []).2
      "SPY" [] rfl).2⟩

/-- Helper: a weight-boxplot call forwards the `x_rotation` binding of the
local kwargs unchanged (none of its own explicit keywords collide with it). -/
theorem lookupKw_weights_boxplot_x_rotation (lk : Kwargs) (si bi : Nat)
    (wf : Option String) (ig : Bool) (t : String) (cell : Cell) :
    lookupKw (weights_boxplot_call lk si bi wf ig t cell).kwargs "x_rotation" =
      lookupKw lk "x_rotation" := by
  dsimp only [weights_boxplot_call, mkCall]
  rw [lookupKw_update_kwargs]
  rfl

/-- Helper: the boxplot-local kwargs carry `x_rotation = 90` iff the first
portfolio's price table has strictly more than 9 columns, provided the merged
kwargs carry no `x_rotation` binding of their own. -/
theorem lookupKw_active_local_x_rotation (K : Kwargs) (p0 : PortfolioData)
    (hk : lookupKw K "x_rotation" = none) :
    lookupKw (active_local_kwargs K p0) "x_rotation" =
      if 9 < p0.pricesColumns.length then some (.num 90) else none := by
  unfold active_local_kwargs
  by_cases hp : 9 < p0.pricesColumns.length
  · rw [if_pos hp, if_pos hp, lookupKw_update_kwargs]
    rfl
  · rw [if_neg hp, if_neg hp, lookupKw_update_kwargs]
    exact hk

/-- C10: in `generate_strategy_benchmark_active_perf_plt` (with the default
arguments and a caller configuration that does not itself set `x_rotation`),
the two weight-boxplot panels — the calls at positions 8 and 9 of the single
page, as the method list shows — receive `x_rotation = 90` exactly when the
first portfolio's instrument price table has strictly more than 9 columns;
the threshold reads the price table, not the weight table. -/
theorem C10_boxplot_rotation_threshold (p0 p1 : PortfolioData)
    (rest : List PortfolioData) (b : String) (bs : List String)
    (fr : Option String) (aw gk : List String) (ks : Kwargs)
    (hk : lookupKw ks "x_rotation" = none) :
    ∃ figs fig,
      generate_strategy_benchmark_active_perf_plt
          ⟨p0 :: p1 :: rest, b :: bs, fr, aw, gk⟩ { kwargs := ks } = .ok figs ∧
      figs.get? 0 = some fig ∧
      fig.calls.map Call.method =
        ["plot_nav", "compute_brinson_attribution",
         "qis.plot_time_series", "add_regime_shadows",
         "qis.plot_time_series", "add_regime_shadows",
         "qis.plot_time_series", "add_regime_shadows",
         "plot_weights_boxplot", "plot_weights_boxplot"] ∧
      (callKwargsAt fig 8 "x_rotation" = some (.num 90) ↔
        9 < p0.pricesColumns.length) ∧
      (callKwargsAt fig 9 "x_rotation" = some (.num 90) ↔
        9 < p0.pricesColumns.length) := by
  have hK : lookupKw (update_kwargs ks (active_plot_kwargs 8 .noneTP))
      "x_rotation" = none := by
    rw [lookupKw_update_kwargs]
    exact hk
  refine ⟨_, _, rfl, rfl, rfl, ?_, ?_⟩
  · show lookupKw (weights_boxplot_call (active_local_kwargs
        (update_kwargs ks (active_plot_kwargs 8 TP.noneTP)) p0) 0 1 (some "ME")
        true ("Boxplot of weights by groups at " ++ freqStr (some "ME") ++ "-freq")
        ⟨1, 2, 0, 1⟩).kwargs "x_rotation" = some (PVal.num 90) ↔
      9 < p0.pricesColumns.length
    rw [lookupKw_weights_boxplot_x_rotation,
        lookupKw_active_local_x_rotation _ _ hK]
    by_cases hp : 9 < p0.pricesColumns.length <;> simp [hp]
  · show lookupKw (weights_boxplot_call (active_local_kwargs
        (update_kwargs ks (active_plot_kwargs 8 TP.noneTP)) p0) 0 1 (some "ME")
        false ("Boxplot of weights by instruments at " ++ freqStr (some "ME") ++ "-freq")
        ⟨2, 3, 0, 1⟩).kwargs "x_rotation" = some (PVal.num 90) ↔
      9 < p0.pricesColumns.length
    rw [lookupKw_weights_boxplot_x_rotation,
        lookupKw_active_local_x_rotation _ _ hK]
    by_cases hp : 9 < p0.pricesColumns.length <;> simp [hp]

/-- C10 (witness): a portfolio with ten price columns (and a single-column
weight table) triggers the rotation threshold. -/
theorem C10_boxplot_rotation_threshold_witness :
    ∃ figs fig,
      generate_strategy_benchmark_active_perf_plt
          ⟨[⟨"S", ["w"], List.replicate 10 "p"⟩, pdBench], ["SPY"], none, [], []⟩
          { kwargs := [] } = .ok figs ∧
      figs.get? 0 = some fig ∧
      fig.calls.map Call.method =
        ["plot_nav", "compute_brinson_attribution",
         "qis.plot_time_series", "add_regime_shadows",
         "qis.plot_time_series", "add_regime_shadows",
         "qis.plot_time_series", "add_regime_shadows",
         "plot_weights_boxplot", "plot_weights_boxplot"] ∧
      (callKwargsAt fig 8 "x_rotation" = some (.num 90) ↔
        9 < (⟨"S", ["w"], List.replicate 10 "p"⟩ : PortfolioData).pricesColumns.length) ∧
      (callKwargsAt fig 9 "x_rotation" = some (.num 90) ↔
        9 < (⟨"S", ["w"], List.replicate 10 "p"⟩ : PortfolioData).pricesColumns.length) :=
  C10_boxplot_rotation_threshold ⟨"S", ["w"], List.replicate 10 "p"⟩ pdBench []
    "SPY" [] none [] [] [] rfl

end QIS
